import Mathlib

/-!
Shallow embedding of `bulk_generate_reports.py` (POS report backfill).

Python `Decimal` values are modelled as exact rationals (`ℚ`); the script
performs exact decimal arithmetic (sums, products and a guarded division),
all of which is exact in `ℚ`.  Database values handed to the coercion
helper `d0` are modelled by `DBVal`; ledger rows fetched by the daily
summary query are modelled by `JournalRow` with `Option` for nullable
columns.  Python string operations used by the script (`str.strip`,
string ordering for `sorted`) are modelled structurally on `List Char`
by code point, matching CPython semantics.
-/

namespace PosReports

/-- Python exception classes relevant to `d0`'s `try/except` clause. -/
inductive PyExc
  | invalidOperation
  | valueError
  | typeError
deriving DecidableEq

/-- A database value as seen by `d0` (line 42): SQL NULL arrives as Python
`None`; a `Decimal` is returned unchanged; any other value is converted via
`Decimal(str(v))`, whose parse either yields an exact decimal or raises
`InvalidOperation`.  `other (some q)` is a non-null, non-Decimal value whose
`str()` parses to the decimal `q`; `other none` is one whose `str()` does
not parse as a number. -/
inductive DBVal
  | null
  | dec (q : ℚ)
  | other (strParse : Option ℚ)
deriving DecidableEq

/-- `Decimal(str(v))` (line 48): succeeds with the exact decimal value or
raises `InvalidOperation` on an unparseable string. -/
def pyDecimalParse : Option ℚ → Except PyExc ℚ
  | some q => Except.ok q
  | none => Except.error PyExc.invalidOperation

/-- `d0` (lines 42-50) with its exception behaviour explicit: the `try`
body returns `0` for `None`, the value itself for a `Decimal`, else the
parse of `str(v)`; the `except (InvalidOperation, ValueError)` clause
converts those two exception classes to `0` and re-raises anything else. -/
def d0E : DBVal → Except PyExc ℚ
  | DBVal.null => Except.ok 0
  | DBVal.dec q => Except.ok q
  | DBVal.other s =>
    match pyDecimalParse s with
    | Except.ok q => Except.ok q
    | Except.error e =>
      if e = PyExc.invalidOperation ∨ e = PyExc.valueError then Except.ok 0
      else Except.error e

/-- The value `d0` returns (it never raises; see `C3_d0_total`). -/
def d0 : DBVal → ℚ
  | DBVal.null => 0
  | DBVal.dec q => q
  | DBVal.other (some q) => q
  | DBVal.other none => 0

/-- One row of the daily-summary query result (lines 146-156): the columns
selected from `Journal`.  Integer-coded columns are nullable integers;
monetary columns are raw database values fed to `d0`. -/
structure JournalRow where
  TransType : Option ℤ
  GroupTransType : Option ℤ
  ReceiptN : Option ℤ
  SubCategoryID : Option String
  Amount : DBVal
  DiscountAmount : DBVal
  TaxInclude : DBVal
  Tax1Amount : DBVal
  Tax2Amount : DBVal
  Tax3Amount : DBVal
  Tax4Amount : DBVal

/-- `tax_total` (lines 159-160). -/
def tax_total (r : JournalRow) : ℚ :=
  d0 r.Tax1Amount + d0 r.Tax2Amount + d0 r.Tax3Amount + d0 r.Tax4Amount

/-- `one_minus_taxinclude` (lines 162-163). -/
def one_minus_taxinclude (r : JournalRow) : ℚ :=
  1 - d0 r.TaxInclude

/-- The gross-line summand of `gross_total` (line 165):
`d0(r.Amount) + tax_total(r) * one_minus_taxinclude(r)`. -/
def gross_line (r : JournalRow) : ℚ :=
  d0 r.Amount + tax_total r * one_minus_taxinclude r

/-- The net-line summand of the sub-category breakdown (line 182):
`d0(r.Amount) - tax_total(r) * d0(r.TaxInclude)`. -/
def net_line (r : JournalRow) : ℚ :=
  d0 r.Amount - tax_total r * d0 r.TaxInclude

/-- C1: For every ledger row, whatever the value of the tax-include field
(not only 0 or 1), the gross-line formula minus the net-line formula equals
the row's tax total, in exact decimal arithmetic. -/
theorem C1_gross_minus_net (r : JournalRow) :
    gross_line r - net_line r = tax_total r := by
  unfold gross_line net_line one_minus_taxinclude
  ring

/-- C3: `d0` never raises: on every input it returns `Except.ok` of an
exact decimal, namely `0` for null input, `0` for input whose string form
does not parse as a number, the value itself for a `Decimal`, and the exact
decimal value of the string form otherwise. -/
theorem C3_d0_total :
    (∀ v : DBVal, d0E v = Except.ok (d0 v)) ∧
    d0 DBVal.null = 0 ∧
    d0 (DBVal.other none) = 0 ∧
    (∀ q : ℚ, d0 (DBVal.dec q) = q) ∧
    (∀ q : ℚ, d0 (DBVal.other (some q)) = q) := by
  refine ⟨?_, rfl, rfl, fun q => rfl, fun q => rfl⟩
  intro v
  cases v with
  | null => rfl
  | dec q => rfl
  | other s => cases s <;> rfl

/-- Python `str.strip()` (line 181): drop whitespace from both ends. -/
def pyStrip (s : String) : String :=
  String.mk (((s.data.dropWhile Char.isWhitespace).reverse.dropWhile Char.isWhitespace).reverse)

/-- Python string `<=` by code point (the order used by `sorted`, line 190),
lexicographic on the character lists. -/
def lexLe : List Char → List Char → Bool
  | [], _ => true
  | _ :: _, [] => false
  | a :: as, b :: bs =>
    if a.toNat < b.toNat then true
    else if b.toNat < a.toNat then false
    else lexLe as bs

/-- `a <= b` on Python strings. -/
def pyStrLe (a b : String) : Bool := lexLe a.data b.data

/-- The proposition form of `pyStrLe`, used as the sort relation. -/
def StrLe (a b : String) : Prop := pyStrLe a b = true

instance : DecidableRel StrLe := fun a b => by
  unfold StrLe; infer_instance

/-- The grouping key of the sub-category breakdown (line 181):
`str(r.SubCategoryID or "").strip() or "UNSPECIFIED"` — a null sub-category
becomes `""`, whitespace is stripped, and a blank result falls back to
`"UNSPECIFIED"`. -/
def subcat_key (r : JournalRow) : String :=
  let s := pyStrip (r.SubCategoryID.getD "")
  if s = "" then "UNSPECIFIED" else s

/-- One step of `by_subcat[key] = by_subcat.get(key, Decimal("0")) + net_line`
(line 183) on an association list in Python-dict insertion order: an existing
key is updated in place, a new key is appended. -/
def dictInsertAdd : List (String × ℚ) → String → ℚ → List (String × ℚ)
  | [], k, v => [(k, v)]
  | (k', v') :: rest, k, v =>
    if k' = k then (k', v' + v) :: rest else (k', v') :: dictInsertAdd rest k v

/-- Dictionary lookup on the association list. -/
def dictGet : List (String × ℚ) → String → Option ℚ
  | [], _ => none
  | (k', v') :: rest, k => if k' = k then some v' else dictGet rest k

/-- The sub-category dictionary built by the loop at lines 180-183. -/
def by_subcat_dict (sales : List JournalRow) : List (String × ℚ) :=
  sales.foldl (fun d r => dictInsertAdd d (subcat_key r) (net_line r)) []

/-- The breakdown as emitted (lines 190-192): keys sorted ascending, each
paired with its dictionary value. -/
def emit_by_subcat (sales : List JournalRow) : List (String × ℚ) :=
  let d := by_subcat_dict sales
  (List.insertionSort StrLe (d.map Prod.fst)).map (fun k => (k, (dictGet d k).getD 0))

/-- `sales = [r for r in rows if int(r.TransType or 0) == 101]` (line 157). -/
def sales_of (rows : List JournalRow) : List JournalRow :=
  rows.filter (fun r => r.TransType.getD 0 == 101)

/-- The numeric results of `build_daily_summary` (lines 157-183), before
HTML rendering. -/
structure DailyData where
  grossTotal : ℚ
  gst : ℚ
  pst : ℚ
  liq : ℚ
  tax4 : ℚ
  totalTaxes : ℚ
  netTotal : ℚ
  discount : ℚ
  customers : ℕ
  avgSale : ℚ
  bySubcat : List (String × ℚ)

/-- The distinct-receipt customer count (line 175):
`len({int(r.ReceiptN) for r in rows if int(r.GroupTransType or 0) == 1 and
r.ReceiptN is not None})`. -/
def customers_of (rows : List JournalRow) : ℕ :=
  (((rows.filter (fun r => r.GroupTransType.getD 0 == 1 && r.ReceiptN.isSome)).filterMap
    (fun r => r.ReceiptN)).dedup).length

/-- The aggregation core of `build_daily_summary` (lines 157-183). -/
def build_daily_data (rows : List JournalRow) : DailyData :=
  let sales := sales_of rows
  let grossTotal := (sales.map gross_line).sum
  let gst := (sales.map (fun r => d0 r.Tax1Amount * one_minus_taxinclude r)).sum
  let pst := (sales.map (fun r => d0 r.Tax2Amount * one_minus_taxinclude r)).sum
  let liq := (sales.map (fun r => d0 r.Tax3Amount * one_minus_taxinclude r)).sum
  let tax4 := (sales.map (fun r => d0 r.Tax4Amount * one_minus_taxinclude r)).sum
  let totalTaxes := gst + pst + liq + tax4
  let netTotal := grossTotal - totalTaxes
  let discount := (sales.map (fun r => d0 r.DiscountAmount)).sum
  let customers := customers_of rows
  let avgSale := if customers ≠ 0 then netTotal / (customers : ℚ) else 0
  let bySubcat := emit_by_subcat sales
  ⟨grossTotal, gst, pst, liq, tax4, totalTaxes, netTotal, discount, customers, avgSale, bySubcat⟩

/-- Row A of the spec's end-to-end example: transaction-type 101, amount
100.00, tax1 5.00, tax2 7.00, tax3 0, tax4 0, taxInclude 0, receipt 1,
sub-category DRINK, group-transaction-type 1. -/
def rowA : JournalRow :=
  { TransType := some 101, GroupTransType := some 1, ReceiptN := some 1,
    SubCategoryID := some "DRINK", Amount := DBVal.dec 100,
    DiscountAmount := DBVal.dec 0, TaxInclude := DBVal.dec 0,
    Tax1Amount := DBVal.dec 5, Tax2Amount := DBVal.dec 7,
    Tax3Amount := DBVal.dec 0, Tax4Amount := DBVal.dec 0 }

/-- Row B of the spec's end-to-end example: transaction-type 101, amount
50.00, tax1 2.50, tax2 3.50, tax3 0, tax4 0, taxInclude 0, receipt 2,
sub-category FOOD, group-transaction-type 1. -/
def rowB : JournalRow :=
  { TransType := some 101, GroupTransType := some 1, ReceiptN := some 2,
    SubCategoryID := some "FOOD", Amount := DBVal.dec 50,
    DiscountAmount := DBVal.dec 0, TaxInclude := DBVal.dec 0,
    Tax1Amount := DBVal.dec (5/2), Tax2Amount := DBVal.dec (7/2),
    Tax3Amount := DBVal.dec 0, Tax4Amount := DBVal.dec 0 }

/-- C2: On the spec's concrete two-row input, the daily summary aggregation
produces grossTotal 168.00, gst 7.50, pst 10.50, totalTaxes 18.00, netTotal
150.00, discount 0, customers 2, avgSale 75.00 and the sub-category
breakdown DRINK = 100.00, FOOD = 50.00 in that order. -/
theorem C2_two_row_example :
    (build_daily_data [rowA, rowB]).grossTotal = 168 ∧
    (build_daily_data [rowA, rowB]).gst = 75 / 10 ∧
    (build_daily_data [rowA, rowB]).pst = 105 / 10 ∧
    (build_daily_data [rowA, rowB]).totalTaxes = 18 ∧
    (build_daily_data [rowA, rowB]).netTotal = 150 ∧
    (build_daily_data [rowA, rowB]).discount = 0 ∧
    (build_daily_data [rowA, rowB]).customers = 2 ∧
    (build_daily_data [rowA, rowB]).avgSale = 75 ∧
    (build_daily_data [rowA, rowB]).bySubcat = [("DRINK", 100), ("FOOD", 50)] := by
  refine ⟨?_, ?_, ?_, ?_, ?_, ?_, ?_, ?_, ?_⟩ <;>
    · simp +decide [build_daily_data, sales_of, customers_of, emit_by_subcat,
        by_subcat_dict, dictInsertAdd, dictGet, subcat_key, pyStrip, gross_line,
        net_line, tax_total, one_minus_taxinclude, d0, rowA, rowB,
        List.insertionSort, List.orderedInsert]
      try norm_num

/-- The `avgSale` field always satisfies the guarded-division equation. -/
theorem avgSale_eq (rows : List JournalRow) :
    (build_daily_data rows).avgSale =
      if customers_of rows ≠ 0
      then (build_daily_data rows).netTotal / (customers_of rows : ℚ)
      else 0 := rfl

/-- C4: If the distinct-customer count is zero, `avgSale` is exactly 0 (the
division is guarded, never performed); if the count is positive, `avgSale`
equals `netTotal` divided by the customer count. -/
theorem C4_avg_sale_guard (rows : List JournalRow) :
    ((build_daily_data rows).customers = 0 → (build_daily_data rows).avgSale = 0) ∧
    (0 < (build_daily_data rows).customers →
      (build_daily_data rows).avgSale =
        (build_daily_data rows).netTotal / ((build_daily_data rows).customers : ℚ)) := by
  have hc : (build_daily_data rows).customers = customers_of rows := rfl
  rw [avgSale_eq, hc]
  constructor
  · intro h
    simp [h]
  · intro h
    have hne : customers_of rows ≠ 0 := by omega
    simp [hne]

/-- Witness for C4: the zero-customer branch at the empty row set, and the
positive branch at the spec's two-row example. -/
theorem C4_avg_sale_guard_witness :
    (build_daily_data []).avgSale = 0 ∧
    (build_daily_data [rowA, rowB]).avgSale =
      (build_daily_data [rowA, rowB]).netTotal /
        ((build_daily_data [rowA, rowB]).customers : ℚ) :=
  ⟨(C4_avg_sale_guard []).1 (by decide),
    (C4_avg_sale_guard [rowA, rowB]).2 (by decide)⟩

/-- The set of receipt numbers that line 175 counts, as a finite set:
distinct receipts over the full prefiltered row set (not just sales)
restricted to group-transaction-type 1 and non-null receipt. -/
def receipt_finset (rows : List JournalRow) : Finset ℤ :=
  (rows.filterMap
    (fun r => if r.GroupTransType.getD 0 = 1 then r.ReceiptN else none)).toFinset

/-- The two ways of collecting the counted receipts produce the same list. -/
theorem receipt_lists_eq (rows : List JournalRow) :
    (rows.filter
        (fun r => r.GroupTransType.getD 0 == 1 && r.ReceiptN.isSome)).filterMap
      (fun r => r.ReceiptN) =
    rows.filterMap
      (fun r => if r.GroupTransType.getD 0 = 1 then r.ReceiptN else none) := by
  induction rows with
  | nil => rfl
  | cons r t ih =>
    by_cases hg : r.GroupTransType.getD 0 = 1
    · cases hr : r.ReceiptN with
      | none => simp [List.filter_cons, List.filterMap_cons, hg, hr, ih]
      | some n => simp [List.filter_cons, List.filterMap_cons, hg, hr, ih]
    · simp [List.filter_cons, List.filterMap_cons, hg, ih]

/-- C6: the customer count is the number of distinct receipt numbers among
the full prefiltered row set (not only the type-101 sales subset) restricted
to rows with group-transaction-type 1 and a non-null receipt number. -/
theorem C6_customers_distinct (rows : List JournalRow) :
    (build_daily_data rows).customers = (receipt_finset rows).card := by
  have h1 : (build_daily_data rows).customers =
      ((rows.filter
          (fun r => r.GroupTransType.getD 0 == 1 && r.ReceiptN.isSome)).filterMap
        (fun r => r.ReceiptN)).dedup.length := rfl
  rw [h1, receipt_finset, List.card_toFinset, receipt_lists_eq]

/-- The WHERE clause of the daily-summary query (lines 152-154):
`DateR >= start AND DateR < end AND Status = 0 AND (TransType IN
(101,102,103,104,311,501,780) OR GroupTransType IN (1,2))`. -/
def daily_where (start_dt end_dt dateR status transType groupTransType : ℤ) : Bool :=
  decide (start_dt ≤ dateR) && decide (dateR < end_dt) && decide (status = 0) &&
    ((transType == 101 || transType == 102 || transType == 103 || transType == 104 ||
      transType == 311 || transType == 501 || transType == 780) ||
     (groupTransType == 1 || groupTransType == 2))

/-- The WHERE clause of the category-report query (lines 237-241):
`DateR >= start AND DateR <= end AND Status = 0 AND (1 - SalesFlag) = 1 AND
TransType IN (101,102,112,111)`. -/
def category_where (start_dt end_dt dateR status salesFlag transType : ℤ) : Bool :=
  decide (start_dt ≤ dateR) && decide (dateR ≤ end_dt) && decide (status = 0) &&
    decide (1 - salesFlag = 1) &&
    (transType == 101 || transType == 102 || transType == 112 || transType == 111)

/-- C7: for the same window, a row timestamped exactly at the window end is
excluded by the daily summary's half-open time filter whatever its
transaction codes, but included by the category report's closed-closed
filter (here with status 0, sales-flag 0, transaction-type 101). -/
theorem C7_boundary_row (start_dt end_dt : ℤ) (h : start_dt ≤ end_dt) :
    (∀ status transType groupTransType : ℤ,
      daily_where start_dt end_dt end_dt status transType groupTransType = false) ∧
    category_where start_dt end_dt end_dt 0 0 101 = true := by
  constructor
  · intro status transType groupTransType
    simp [daily_where]
  · simp [category_where, h]

/-- Witness for C7 at the concrete window `[0, 1]`. -/
theorem C7_boundary_row_witness :
    (∀ status transType groupTransType : ℤ,
      daily_where 0 1 1 status transType groupTransType = false) ∧
    category_where 0 1 1 0 0 101 = true :=
  C7_boundary_row 0 1 (by norm_num)

/-- C10: a window whose prefiltered rows contain no transaction-type-101 row
and no group-transaction-type-1 row aggregates to all-zero totals, zero
customers, zero average sale, and an empty sub-category breakdown. -/
theorem C10_no_sales_no_customers (rows : List JournalRow)
    (h : ∀ r ∈ rows, r.TransType.getD 0 ≠ 101 ∧ r.GroupTransType.getD 0 ≠ 1) :
    (build_daily_data rows).grossTotal = 0 ∧
    (build_daily_data rows).gst = 0 ∧
    (build_daily_data rows).pst = 0 ∧
    (build_daily_data rows).liq = 0 ∧
    (build_daily_data rows).tax4 = 0 ∧
    (build_daily_data rows).totalTaxes = 0 ∧
    (build_daily_data rows).netTotal = 0 ∧
    (build_daily_data rows).discount = 0 ∧
    (build_daily_data rows).customers = 0 ∧
    (build_daily_data rows).avgSale = 0 ∧
    (build_daily_data rows).bySubcat = [] := by
  have hsales : sales_of rows = [] := by
    rw [sales_of, List.filter_eq_nil_iff]
    intro r hr
    simpa using (h r hr).1
  have hcust : customers_of rows = 0 := by
    have : rows.filter
        (fun r => r.GroupTransType.getD 0 == 1 && r.ReceiptN.isSome) = [] := by
      rw [List.filter_eq_nil_iff]
      intro r hr
      simp [(h r hr).2]
    simp [customers_of, this]
  simp [build_daily_data, hsales, hcust, emit_by_subcat, by_subcat_dict]

/-- A row outside both the sales subset and the customer-count subset:
transaction-type 102, group-transaction-type 2. -/
def rowVoid : JournalRow :=
  { TransType := some 102, GroupTransType := some 2, ReceiptN := some 7,
    SubCategoryID := some "DRINK", Amount := DBVal.dec 33,
    DiscountAmount := DBVal.dec 1, TaxInclude := DBVal.dec 0,
    Tax1Amount := DBVal.dec 2, Tax2Amount := DBVal.dec 1,
    Tax3Amount := DBVal.dec 0, Tax4Amount := DBVal.dec 0 }

/-- Witness for C10 at a one-row input carrying neither transaction-type 101
nor group-transaction-type 1. -/
theorem C10_no_sales_no_customers_witness :
    (build_daily_data [rowVoid]).grossTotal = 0 ∧
    (build_daily_data [rowVoid]).gst = 0 ∧
    (build_daily_data [rowVoid]).pst = 0 ∧
    (build_daily_data [rowVoid]).liq = 0 ∧
    (build_daily_data [rowVoid]).tax4 = 0 ∧
    (build_daily_data [rowVoid]).totalTaxes = 0 ∧
    (build_daily_data [rowVoid]).netTotal = 0 ∧
    (build_daily_data [rowVoid]).discount = 0 ∧
    (build_daily_data [rowVoid]).customers = 0 ∧
    (build_daily_data [rowVoid]).avgSale = 0 ∧
    (build_daily_data [rowVoid]).bySubcat = [] :=
  C10_no_sales_no_customers [rowVoid] (by
    intro r hr
    simp only [List.mem_singleton] at hr
    subst hr
    refine ⟨by decide, by decide⟩)

theorem lexLe_total (as : List Char) :
    ∀ bs, lexLe as bs = true ∨ lexLe bs as = true := by
  induction as with
  | nil => intro bs; left; rfl
  | cons a as ih =>
    intro bs
    cases bs with
    | nil => right; rfl
    | cons b bs =>
      rcases Nat.lt_trichotomy a.toNat b.toNat with h | h | h
      · left; simp [lexLe, h]
      · rcases ih bs with h2 | h2
        · left; simp [lexLe, h, h2]
        · right; simp [lexLe, h, h2]
      · right; simp [lexLe, h]

theorem lexLe_trans (as : List Char) :
    ∀ bs cs, lexLe as bs = true → lexLe bs cs = true → lexLe as cs = true := by
  induction as with
  | nil => intro bs cs _ _; rfl
  | cons a as ih =>
    intro bs cs hab hbc
    cases bs with
    | nil => simp [lexLe] at hab
    | cons b bs =>
      cases cs with
      | nil => simp [lexLe] at hbc
      | cons c cs =>
        simp only [lexLe] at hab hbc ⊢
        split_ifs at hab hbc ⊢ <;>
          first
            | rfl
            | (exact ih bs cs hab hbc)
            | (exact Bool.noConfusion hab)
            | (exact Bool.noConfusion hbc)
            | (exfalso; omega)

theorem lexLe_antisymm (as : List Char) :
    ∀ bs, lexLe as bs = true → lexLe bs as = true → as = bs := by
  induction as with
  | nil =>
    intro bs _ h2
    cases bs with
    | nil => rfl
    | cons b bs => simp [lexLe] at h2
  | cons a as ih =>
    intro bs h1 h2
    cases bs with
    | nil => simp [lexLe] at h1
    | cons b bs =>
      simp only [lexLe] at h1 h2
      split_ifs at h1 h2 <;>
        first
          | (exact Bool.noConfusion h1)
          | (exact Bool.noConfusion h2)
          | (exfalso; omega)
          | (refine congrArg₂ List.cons ?_ (ih bs h1 h2);
             apply Char.ext; apply UInt32.ext;
             simp only [Char.toNat] at *; omega)

instance : IsTotal String StrLe :=
  ⟨fun a b => lexLe_total a.data b.data⟩

instance : IsTrans String StrLe :=
  ⟨fun a b c hab hbc => lexLe_trans a.data b.data c.data hab hbc⟩

theorem strLe_antisymm {a b : String} (h1 : StrLe a b) (h2 : StrLe b a) : a = b :=
  String.ext (lexLe_antisymm a.data b.data h1 h2)

/-- The per-key net sum the breakdown is specified to compute: over the
type-101 sales subset, the sum of `net_line` of the rows grouped under `k`. -/
def group_net_sum (sales : List JournalRow) (k : String) : ℚ :=
  ((sales.filter (fun r => subcat_key r == k)).map net_line).sum

theorem dictGet_insertAdd (d : List (String × ℚ)) (k : String) (v : ℚ) (k₁ : String) :
    dictGet (dictInsertAdd d k v) k₁ =
      if k₁ = k then some ((dictGet d k).getD 0 + v) else dictGet d k₁ := by
  induction d with
  | nil =>
    by_cases h : k₁ = k
    · subst h; simp [dictInsertAdd, dictGet]
    · simp [dictInsertAdd, dictGet, h, Ne.symm h]
  | cons p rest ih =>
    obtain ⟨k', v'⟩ := p
    by_cases hk : k' = k
    · subst hk
      by_cases h1 : k₁ = k'
      · subst h1; simp [dictInsertAdd, dictGet]
      · simp [dictInsertAdd, dictGet, h1, Ne.symm h1]
    · by_cases h1 : k₁ = k'
      · subst h1
        simp [dictInsertAdd, dictGet, hk, Ne.symm hk, ih]
      · simp [dictInsertAdd, dictGet, hk, h1, Ne.symm h1, ih]

theorem dictGet_none_iff (d : List (String × ℚ)) (k : String) :
    dictGet d k = none ↔ k ∉ d.map Prod.fst := by
  induction d with
  | nil => simp [dictGet]
  | cons p rest ih =>
    obtain ⟨k', v'⟩ := p
    by_cases h : k' = k
    · subst h; simp [dictGet]
    · simp [dictGet, h, Ne.symm h, ih]

theorem by_subcat_fold_getD (l : List JournalRow) :
    ∀ (d : List (String × ℚ)) (k : String),
      (dictGet (l.foldl (fun d r => dictInsertAdd d (subcat_key r) (net_line r)) d) k).getD 0 =
        (dictGet d k).getD 0 + group_net_sum l k := by
  induction l with
  | nil => intro d k; simp [group_net_sum]
  | cons r t ih =>
    intro d k
    rw [List.foldl_cons, ih, dictGet_insertAdd]
    by_cases h : k = subcat_key r
    · have hb : (subcat_key r == k) = true := by simp [h]
      simp only [h, if_pos rfl, group_net_sum, List.filter_cons, hb, List.map_cons,
        List.sum_cons, Option.getD_some]
      have : (dictGet d (subcat_key r)).getD 0 + net_line r + group_net_sum t (subcat_key r) =
          (dictGet d (subcat_key r)).getD 0 + (net_line r + group_net_sum t (subcat_key r)) := by
        ring
      simpa [group_net_sum] using this
    · have hb : (subcat_key r == k) = false := by simp [Ne.symm h]
      simp [if_neg h, group_net_sum, List.filter_cons, hb]

theorem by_subcat_fold_none (l : List JournalRow) :
    ∀ (d : List (String × ℚ)) (k : String),
      dictGet (l.foldl (fun d r => dictInsertAdd d (subcat_key r) (net_line r)) d) k = none ↔
        (dictGet d k = none ∧ k ∉ l.map subcat_key) := by
  induction l with
  | nil => intro d k; simp
  | cons r t ih =>
    intro d k
    rw [List.foldl_cons, ih, dictGet_insertAdd]
    by_cases h : k = subcat_key r
    · simp [h]
    · simp [h, Ne.symm h]

/-- C5: the daily summary's sub-category breakdown is computed over the
transaction-type-101 sales subset only, grouping by the sub-category key
(null or blank identifiers map to `"UNSPECIFIED"`), summing `net_line` per
group, and is emitted sorted ascending by group key. -/
theorem C5_subcat_breakdown (rows : List JournalRow) :
    List.Sorted StrLe (((build_daily_data rows).bySubcat).map Prod.fst) ∧
    (∀ (k : String) (v : ℚ),
      (k, v) ∈ (build_daily_data rows).bySubcat ↔
        (k ∈ (sales_of rows).map subcat_key ∧ v = group_net_sum (sales_of rows) k)) ∧
    (∀ r : JournalRow,
      r.SubCategoryID = none ∨ pyStrip (r.SubCategoryID.getD "") = "" →
        subcat_key r = "UNSPECIFIED") := by
  have hby : (build_daily_data rows).bySubcat = emit_by_subcat (sales_of rows) := rfl
  refine ⟨?_, ?_, ?_⟩
  · rw [hby]
    have hmap : (emit_by_subcat (sales_of rows)).map Prod.fst =
        List.insertionSort StrLe ((by_subcat_dict (sales_of rows)).map Prod.fst) := by
      simp [emit_by_subcat, List.map_map, Function.comp_def]
    rw [hmap]
    exact List.sorted_insertionSort StrLe _
  · intro k v
    have hfold : by_subcat_dict (sales_of rows) =
        (sales_of rows).foldl
          (fun d r => dictInsertAdd d (subcat_key r) (net_line r)) [] := rfl
    have hval : (dictGet (by_subcat_dict (sales_of rows)) k).getD 0 =
        group_net_sum (sales_of rows) k := by
      rw [hfold, by_subcat_fold_getD]
      simp [dictGet]
    have hnone : dictGet (by_subcat_dict (sales_of rows)) k = none ↔
        k ∉ (sales_of rows).map subcat_key := by
      rw [hfold, by_subcat_fold_none]
      simp [dictGet]
    constructor
    · intro hmem
      rw [hby] at hmem
      obtain ⟨k₁, hk₁, hkv⟩ := List.mem_map.mp hmem
      obtain ⟨rfl, rfl⟩ : k₁ = k ∧ (dictGet (by_subcat_dict (sales_of rows)) k₁).getD 0 = v := by
        exact ⟨congrArg Prod.fst hkv, congrArg Prod.snd hkv⟩
      have hkeys : k₁ ∈ (by_subcat_dict (sales_of rows)).map Prod.fst :=
        ((List.perm_insertionSort StrLe _).mem_iff).mp hk₁
      have hne : dictGet (by_subcat_dict (sales_of rows)) k₁ ≠ none := by
        intro hcontra
        exact ((dictGet_none_iff _ _).mp hcontra) hkeys
      refine ⟨?_, hval⟩
      by_contra hnotin
      exact hne (hnone.mpr hnotin)
    · rintro ⟨hk, rfl⟩
      rw [hby]
      apply List.mem_map.mpr
      refine ⟨k, ?_, by rw [hval]⟩
      rw [(List.perm_insertionSort StrLe _).mem_iff]
      by_contra hnotkeys
      have : dictGet (by_subcat_dict (sales_of rows)) k = none :=
        (dictGet_none_iff _ _).mpr hnotkeys
      exact (hnone.mp this) hk
  · intro r hr
    rcases hr with hnull | hblank
    · simp [subcat_key, hnull, pyStrip]
    · simp [subcat_key, hblank]

/-- A sales row whose sub-category identifier is null. -/
def rowNullCat : JournalRow :=
  { TransType := some 101, GroupTransType := some 1, ReceiptN := some 3,
    SubCategoryID := none, Amount := DBVal.dec 20,
    DiscountAmount := DBVal.dec 0, TaxInclude := DBVal.dec 0,
    Tax1Amount := DBVal.dec 1, Tax2Amount := DBVal.dec 0,
    Tax3Amount := DBVal.dec 0, Tax4Amount := DBVal.dec 0 }

/-- Witness for C5: sortedness and the membership characterization at the
spec's two-row input, and the null-to-UNSPECIFIED fallback at a concrete
row with a null sub-category identifier. -/
theorem C5_subcat_breakdown_witness :
    List.Sorted StrLe (((build_daily_data [rowA, rowB]).bySubcat).map Prod.fst) ∧
    (("DRINK", group_net_sum (sales_of [rowA, rowB]) "DRINK") ∈
        (build_daily_data [rowA, rowB]).bySubcat ↔
      ("DRINK" ∈ (sales_of [rowA, rowB]).map subcat_key ∧
        group_net_sum (sales_of [rowA, rowB]) "DRINK" =
          group_net_sum (sales_of [rowA, rowB]) "DRINK")) ∧
    subcat_key rowNullCat = "UNSPECIFIED" :=
  ⟨(C5_subcat_breakdown [rowA, rowB]).1,
    (C5_subcat_breakdown [rowA, rowB]).2.1 "DRINK" (group_net_sum (sales_of [rowA, rowB]) "DRINK"),
    (C5_subcat_breakdown [rowA, rowB]).2.2 rowNullCat (Or.inl rfl)⟩

/-- Python string `>=`, the order of `sorted(dates_set, reverse=True)`
(line 353). -/
def StrGe (a b : String) : Prop := StrLe b a

instance : DecidableRel StrGe := fun a b => by
  unfold StrGe StrLe; infer_instance

instance : IsTotal String StrGe :=
  ⟨fun a b => (lexLe_total b.data a.data).elim Or.inl Or.inr⟩

instance : IsTrans String StrGe :=
  ⟨fun a b c hab hbc => lexLe_trans c.data b.data a.data hbc hab⟩

/-- `sorted(dates_set, reverse=True)` (line 353). -/
def sortDesc (l : List String) : List String := List.insertionSort StrGe l

/-- The document written by `save_index` (lines 302-308): `latest`, the
descending date list, and the current wall-clock timestamp. -/
structure IndexPayload where
  latest : String
  dates : List String
  updated_at : String
deriving DecidableEq

/-- `save_index` (lines 302-308), with `datetime.now()` made an explicit
`now` argument. -/
def save_index (latest : String) (dates : List String) (now : String) : IndexPayload :=
  { latest := latest, dates := dates, updated_at := now }

/-- The terminal step of `main` (lines 352-356): sort the completed-date set
descending, take its head as `latest` (Python `None` if the list is empty),
and call `save_index` only when `latest` is truthy — `None` and the empty
string are falsy, so nothing is persisted then. -/
def finalize_step (dates_set : List String) (now : String) : Option IndexPayload :=
  let dates_sorted := sortDesc dates_set
  match dates_sorted with
  | [] => none
  | latest :: rest =>
    if latest ≠ "" then some (save_index latest (latest :: rest) now) else none

/-- C8 counterexample: on a run where no day ever succeeded and the index
started empty, the completed-date set is empty and the terminal step
persists nothing — contradicting the claim that the finalize step runs
regardless and persists a document with a null `latest` field. -/
theorem C8_finalize_counterexample :
    finalize_step [] "2026-10-12 00:00:00" = none := rfl

/-- C8 amended: the terminal index step persists a document only when the
completed-date set is non-empty (and its maximum, a date string, is
non-blank); the persisted document then has `latest` equal to the maximum
of the set and `dates` equal to the set sorted descending; with an empty
set, nothing is persisted. -/
theorem C8_finalize_amended (dates : List String) (now : String) (m : String)
    (hmem : m ∈ dates) (hmax : ∀ a ∈ dates, StrLe a m) (hne : m ≠ "") :
    finalize_step dates now = some (save_index m (sortDesc dates) now) ∧
    List.Sorted StrGe (sortDesc dates) ∧
    (sortDesc dates).Perm dates ∧
    (∀ now₂ : String, finalize_step [] now₂ = none) := by
  have hperm : (sortDesc dates).Perm dates := List.perm_insertionSort StrGe dates
  have hsort : List.Sorted StrGe (sortDesc dates) := List.sorted_insertionSort StrGe dates
  have hmemL : m ∈ sortDesc dates := hperm.mem_iff.mpr hmem
  refine ⟨?_, hsort, hperm, fun now₂ => rfl⟩
  cases hL : sortDesc dates with
  | nil => rw [hL] at hmemL; exact absurd hmemL (List.not_mem_nil m)
  | cons h t =>
    rw [hL] at hmemL hsort hperm
    have hh_mem : h ∈ dates := hperm.subset (List.mem_cons_self h t)
    have h_le_m : StrLe h m := hmax h hh_mem
    have hm_eq : m = h := by
      rcases List.mem_cons.mp hmemL with h1 | h1
      · exact h1
      · have : StrGe h m := (List.sorted_cons.mp hsort).1 m h1
        exact strLe_antisymm this h_le_m
    have hne2 : h ≠ "" := hm_eq ▸ hne
    rw [finalize_step]
    simp only [hL]
    rw [if_pos hne2, hm_eq]

/-- Witness for C8 amended at a concrete two-date set. -/
theorem C8_finalize_amended_witness :
    finalize_step ["2025-12-01", "2025-12-02"] "2026-10-12 00:00:00" =
      some (save_index "2025-12-02" (sortDesc ["2025-12-01", "2025-12-02"])
        "2026-10-12 00:00:00") ∧
    List.Sorted StrGe (sortDesc ["2025-12-01", "2025-12-02"]) ∧
    (sortDesc ["2025-12-01", "2025-12-02"]).Perm ["2025-12-01", "2025-12-02"] ∧
    (∀ now₂ : String, finalize_step [] now₂ = none) :=
  C8_finalize_amended ["2025-12-01", "2025-12-02"] "2026-10-12 00:00:00" "2025-12-02"
    (by decide) (by decide) (by decide)

/-- The fixed text of the `html_shell` template (lines 83-120) up to the
first `title` interpolation. -/
def htmlPart1 : String :=
  "<!doctype html>\n<html>\n<head>\n  <meta charset=\"utf-8\">\n  <title>"

/-- Template text between the `<title>` interpolation and the `<h2>` title
interpolation (the viewport meta, the style sheet, and the opening of the
page scaffolding). -/
def htmlPart2 : String :=
  "</title>\n  <meta name=\"viewport\" content=\"width=device-width, initial-scale=1\">\n  <style>\n    body \x7b font-family: Arial, sans-serif; background:#0b1220; color:#e9eefc; margin:0; padding:24px; \x7d\n    .wrap \x7b max-width: 1100px; margin: 0 auto; \x7d\n    .card \x7b background:#121a2b; border:1px solid rgba(255,255,255,.08); border-radius:10px; padding:16px; \x7d\n    .muted \x7b color: rgba(233,238,252,.75); \x7d\n    .mono \x7b font-family: ui-monospace, SFMono-Regular, Menlo, Monaco, Consolas, \"Liberation Mono\", monospace; \x7d\n    table \x7b width:100%; border-collapse: collapse; \x7d\n    th, td \x7b padding:8px 10px; border-bottom:1px solid rgba(255,255,255,.08); \x7d\n    thead th \x7b background: rgba(255,255,255,.06); text-align:left; \x7d\n    .right \x7b text-align:right; \x7d\n    .red \x7b color:#ff6b6b; font-weight:bold; \x7d\n    a, a:hover \x7b color:#9ec5fe; \x7d\n  </style>\n</head>\n<body>\n  <div class=\"wrap\">\n    <div class=\"card\">\n      <div style=\"display:flex; justify-content:space-between; align-items:flex-start; gap:12px;\">\n        <div>\n          <h2 style=\"margin:0;\">"

/-- Template text between the `<h2>` title and the subtitle. -/
def htmlPart3 : String :=
  "</h2>\n          <div class=\"muted\">"

/-- Template text between the subtitle and the generation timestamp. -/
def htmlPart4 : String :=
  "</div>\n        </div>\n        <div class=\"muted mono\">"

/-- Template text between the generation timestamp and the body. -/
def htmlPart5 : String :=
  "</div>\n      </div>\n      <div style=\"margin-top:14px;\">\n        "

/-- Template text after the body. -/
def htmlPart6 : String :=
  "\n      </div>\n    </div>\n  </div>\n</body>\n</html>\n"

/-- `html_shell` (lines 82-120), with the call
`datetime.now().strftime("%Y-%m-%d %H:%M:%S")` at line 111 made an explicit
`now` argument: the rendered page embeds the wall-clock timestamp of the
moment it was generated. -/
def html_shell (title body subtitle now : String) : String :=
  htmlPart1 ++ title ++ htmlPart2 ++ title ++ htmlPart3 ++ subtitle ++ htmlPart4 ++
    now ++ htmlPart5 ++ body ++ htmlPart6

/-- `dates_set.add(ds)` (line 341) on the set of completed dates, modelled
on a duplicate-free list: adding an element already present is a no-op. -/
def pySetAdd (S : List String) (ds : String) : List String :=
  if ds ∈ S then S else S ++ [ds]

/-- Two renderings of the same report differ exactly in the embedded
timestamp: equal output forces an equal clock string. -/
theorem html_shell_now_inj {t b s n₁ n₂ : String}
    (h : html_shell t b s n₁ = html_shell t b s n₂) : n₁ = n₂ := by
  unfold html_shell at h
  have h2 := congrArg String.data h
  simp only [String.data_append, List.append_assoc, List.append_right_inj,
    List.append_left_inj] at h2
  exact String.ext h2

/-- C9 counterexample: the same summary re-generated one day later (same
title, body and subtitle, different wall clock) is not byte-identical,
because `html_shell` embeds the generation timestamp in the page. -/
theorem C9_rerun_counterexample :
    html_shell "Summary Report Daily" "<table></table>"
        "Business window: 2025-12-01 06:30:00" "2026-10-11 09:00:00" ≠
      html_shell "Summary Report Daily" "<table></table>"
        "Business window: 2025-12-01 06:30:00" "2026-10-12 09:00:00" := by
  intro h
  have := html_shell_now_inj h
  exact absurd this (by decide)

/-- C9 amended: re-running the backfill over a date already present in the
index, with the same ledger rows, produces summary output that is
byte-identical except for the embedded generation timestamp (identical
exactly when the wall-clock string is the same), and leaves the index's
dates set unchanged in membership (the date still appears exactly once). -/
theorem C9_rerun_amended (t b s n₁ n₂ : String) (S : List String) (ds : String)
    (hds : ds ∈ S) :
    (html_shell t b s n₁ = html_shell t b s n₂ ↔ n₁ = n₂) ∧ pySetAdd S ds = S := by
  refine ⟨⟨html_shell_now_inj, fun h => by rw [h]⟩, by simp [pySetAdd, hds]⟩

/-- Witness for C9 amended at concrete strings and a one-date index. -/
theorem C9_rerun_amended_witness :
    (html_shell "Summary Report Daily" "<table></table>"
        "Business window: 2025-12-01 06:30:00" "2026-10-11 09:00:00" =
      html_shell "Summary Report Daily" "<table></table>"
        "Business window: 2025-12-01 06:30:00" "2026-10-12 09:00:00" ↔
      ("2026-10-11 09:00:00" : String) = "2026-10-12 09:00:00") ∧
    pySetAdd ["2025-12-01"] "2025-12-01" = ["2025-12-01"] :=
  C9_rerun_amended "Summary Report Daily" "<table></table>"
    "Business window: 2025-12-01 06:30:00" "2026-10-11 09:00:00" "2026-10-12 09:00:00"
    ["2025-12-01"] "2025-12-01" (by decide)

end PosReports
